import Mathlib

/-!
Shallow embedding of the conjunction-data validator (validator/models.py,
validator/rules.py, validator/validation.py).

Modelling conventions:
* Python floats are modelled as real numbers.
* Timestamps (datetime, UTC) are modelled as real-valued epoch seconds; the
  difference of two datetimes in seconds (total_seconds) is real subtraction,
  and datetime comparison is real comparison.  The isoformat strings that the
  source places in the TIME_ORDER details dictionary are abstracted to the
  numeric timestamps themselves.
* The length-3 vectors (pydantic min_length=3, max_length=3) are a structure
  with three real fields; the flattened length-9 covariance is a structure
  with nine real fields, reshaped row-major by cov3x3.
* np.linalg.eigvalsh on the symmetrized matrix is the (real) spectrum of a
  Hermitian matrix, taken from Mathlib; np.min over the eigenvalue array is
  the finite minimum over the index type.
* report_time_utc (wall-clock stamp) is not modelled; no claim mentions it.
-/

open scoped Classical
open Matrix

namespace CDV

/-- Severity literal of validation.py line 14: one of PASS, WARN, FAIL. -/
inductive Severity
  | PASS
  | WARN
  | FAIL
deriving DecidableEq, Repr

/-- One value of the optional details dictionary of a finding
(Dict[str, Any] in validation.py): a number, a string, or a list of
numbers (the diag entry of COV_DIAG). -/
inductive DetailVal
  | num (x : ℝ)
  | str (s : String)
  | vals (xs : List ℝ)

/-- Finding (validation.py lines 17-21). -/
structure Finding where
  check_id : String
  severity : Severity
  message : String
  details : Option (List (String × DetailVal))

/-- Reference frame enumeration (models.py line 13). -/
inductive Frame
  | EME2000
  | ITRF
  | TEME
deriving DecidableEq, Repr

/-- Name of a frame, used in the FRAME_MATCH details. -/
def frameName : Frame → String
  | .EME2000 => "EME2000"
  | .ITRF => "ITRF"
  | .TEME => "TEME"

/-- A length-3 real vector (pydantic List[float] with min_length=3,
max_length=3 in models.py). -/
structure Vec3 where
  x : ℝ
  y : ℝ
  z : ℝ

/-- Component-wise difference of two vectors (np.array subtraction in
validation.py lines 104-105). -/
def Vec3.sub (a b : Vec3) : Vec3 :=
  ⟨a.x - b.x, a.y - b.y, a.z - b.z⟩

/-- A flattened row-major 3x3 covariance (pydantic List[float] with
min_length=9, max_length=9 in models.py lines 28-30).  Field ci is the
i-th entry of the flat list. -/
structure Cov9 where
  c0 : ℝ
  c1 : ℝ
  c2 : ℝ
  c3 : ℝ
  c4 : ℝ
  c5 : ℝ
  c6 : ℝ
  c7 : ℝ
  c8 : ℝ

/-- ObjectState (models.py lines 9-13). -/
structure ObjectState where
  object_id : String
  position_m : Vec3
  velocity_mps : Vec3
  frame : Frame

/-- ConjunctionMessage (models.py lines 16-33).  The ge=0 bounds on the
optional scalars are upstream schema validation, not part of the value
type; claims that need them state them as hypotheses. -/
structure ConjunctionMessage where
  message_id : String
  creation_time_utc : ℝ
  tca_utc : ℝ
  primary : ObjectState
  secondary : ObjectState
  miss_distance_m : Option ℝ
  relative_speed_mps : Option ℝ
  rel_pos_cov_m2 : Option Cov9

/-- TimeRules (rules.py lines 10-11); default 60.0. -/
structure TimeRules where
  warn_if_lead_time_s_below : ℝ

/-- StateRules (rules.py lines 14-16); defaults 80_000_000.0 and 15_000.0. -/
structure StateRules where
  max_position_norm_m_warn : ℝ
  max_speed_mps_warn : ℝ

/-- ConsistencyRules (rules.py lines 19-23); defaults 5.0, 0.10, 0.2, 0.10. -/
structure ConsistencyRules where
  miss_distance_abs_tol_m : ℝ
  miss_distance_rel_tol_frac : ℝ
  rel_speed_abs_tol_mps : ℝ
  rel_speed_rel_tol_frac : ℝ

/-- CovarianceRules (rules.py lines 26-30); defaults 1e-6, -1e-9,
100_000.0, 10_000_000.0. -/
structure CovarianceRules where
  symmetry_tol : ℝ
  psd_eig_tol : ℝ
  std_warn_m : ℝ
  std_fail_m : ℝ

/-- Rules (rules.py lines 33-37). -/
structure Rules where
  time : TimeRules
  state : StateRules
  consistency : ConsistencyRules
  covariance : CovarianceRules

noncomputable section

/-- The default rule set (all pydantic field defaults of rules.py).
Decimal literals of the source are written as exact fractions:
0.10 = 1/10, 0.2 = 1/5, 1e-6 = 1/1000000, -1e-9 = -(1/1000000000). -/
def defaultRules : Rules :=
  { time := { warn_if_lead_time_s_below := 60 }
    state := { max_position_norm_m_warn := 80000000
               max_speed_mps_warn := 15000 }
    consistency := { miss_distance_abs_tol_m := 5
                     miss_distance_rel_tol_frac := 1/10
                     rel_speed_abs_tol_mps := 1/5
                     rel_speed_rel_tol_frac := 1/10 }
    covariance := { symmetry_tol := 1/1000000
                    psd_eig_tol := -(1/1000000000)
                    std_warn_m := 100000
                    std_fail_m := 10000000 } }

/-- Euclidean norm of a length-3 vector (the helper named with a leading
underscore at validation.py lines 40-42, np.linalg.norm). -/
def norm3 (v : Vec3) : ℝ :=
  Real.sqrt (v.x ^ 2 + v.y ^ 2 + v.z ^ 2)

/-- Row-major reshape of the flat 9-vector into a 3x3 matrix (the helper
at validation.py lines 45-46). -/
def cov3x3 (f : Cov9) : Matrix (Fin 3) (Fin 3) ℝ :=
  !![f.c0, f.c1, f.c2; f.c3, f.c4, f.c5; f.c6, f.c7, f.c8]

/-- Maximum of the absolute values of all nine entries of a 3x3 matrix
(np.max of np.abs at validation.py line 150). -/
def matAbsMax (M : Matrix (Fin 3) (Fin 3) ℝ) : ℝ :=
  max (max (max (max |M 0 0| |M 0 1|) (max |M 0 2| |M 1 0|))
           (max (max |M 1 1| |M 1 2|) (max |M 2 0| |M 2 1|)))
      |M 2 2|

/-- Symmetrized matrix Csym = 0.5 * (C + C.T) (validation.py line 157). -/
def covSymmetrize (C : Matrix (Fin 3) (Fin 3) ℝ) : Matrix (Fin 3) (Fin 3) ℝ :=
  ((1 : ℝ)/2) • (C + Cᵀ)

/-- Minimum eigenvalue of a symmetric real 3x3 matrix: np.min of
np.linalg.eigvalsh (validation.py lines 158-159).  eigvalsh reads the
matrix as Hermitian; the definition is guarded by that hypothesis, which
holds for the symmetrized matrix it is applied to. -/
def minEig (M : Matrix (Fin 3) (Fin 3) ℝ) : ℝ :=
  if h : M.IsHermitian then
    Finset.univ.inf' Finset.univ_nonempty h.eigenvalues
  else 0

/-- Relative position vector secondary - primary and its norm
(validation.py lines 104 and 106). -/
def miss_est (msg : ConjunctionMessage) : ℝ :=
  norm3 (Vec3.sub msg.secondary.position_m msg.primary.position_m)

/-- Relative velocity vector secondary - primary and its norm
(validation.py lines 105 and 107). -/
def rel_speed_est (msg : ConjunctionMessage) : ℝ :=
  norm3 (Vec3.sub msg.secondary.velocity_mps msg.primary.velocity_mps)

/-- Identity distinctness check (validation.py lines 54-57). -/
def idCheck (msg : ConjunctionMessage) : Finding :=
  if msg.primary.object_id = msg.secondary.object_id then
    { check_id := "ID_DISTINCT", severity := .FAIL
      message := "Primary and secondary object_id are identical."
      details := none }
  else
    { check_id := "ID_DISTINCT", severity := .PASS
      message := "Primary and secondary object_id are distinct."
      details := none }

/-- Time consistency check (validation.py lines 60-73). -/
def timeCheck (msg : ConjunctionMessage) (rules : Rules) : Finding :=
  if msg.creation_time_utc ≥ msg.tca_utc then
    { check_id := "TIME_ORDER", severity := .FAIL
      message := "creation_time_utc is not before tca_utc."
      details := some [("creation_time_utc", .num msg.creation_time_utc),
                       ("tca_utc", .num msg.tca_utc)] }
  else
    let lead_s := msg.tca_utc - msg.creation_time_utc
    if lead_s < rules.time.warn_if_lead_time_s_below then
      { check_id := "LEAD_TIME", severity := .WARN
        message := "Very small lead time between creation and TCA."
        details := some [("lead_time_s", .num lead_s)] }
    else
      { check_id := "LEAD_TIME", severity := .PASS
        message := "Lead time between creation and TCA is within expectations."
        details := some [("lead_time_s", .num lead_s)] }

/-- Frame consistency check (validation.py lines 76-85). -/
def frameCheck (msg : ConjunctionMessage) : Finding :=
  if msg.primary.frame ≠ msg.secondary.frame then
    { check_id := "FRAME_MATCH", severity := .WARN
      message := "Primary and secondary frames differ (review needed)."
      details := some [("primary_frame", .str (frameName msg.primary.frame)),
                       ("secondary_frame", .str (frameName msg.secondary.frame))] }
  else
    { check_id := "FRAME_MATCH", severity := .PASS
      message := "Primary and secondary frames match."
      details := some [("frame", .str (frameName msg.primary.frame))] }

/-- Position-norm plausibility check (validation.py lines 88-96). -/
def posNormCheck (msg : ConjunctionMessage) (rules : Rules) : Finding :=
  let p_r := norm3 msg.primary.position_m
  let s_r := norm3 msg.secondary.position_m
  if p_r > rules.state.max_position_norm_m_warn ∨
     s_r > rules.state.max_position_norm_m_warn then
    { check_id := "POS_NORM", severity := .WARN
      message := "Large position norm detected (check units/reference)."
      details := some [("primary_r_m", .num p_r), ("secondary_r_m", .num s_r)] }
  else
    { check_id := "POS_NORM", severity := .PASS
      message := "Position norms look reasonable."
      details := some [("primary_r_m", .num p_r), ("secondary_r_m", .num s_r)] }

/-- Speed-norm plausibility check (validation.py lines 90-101). -/
def speedNormCheck (msg : ConjunctionMessage) (rules : Rules) : Finding :=
  let p_v := norm3 msg.primary.velocity_mps
  let s_v := norm3 msg.secondary.velocity_mps
  if p_v > rules.state.max_speed_mps_warn ∨
     s_v > rules.state.max_speed_mps_warn then
    { check_id := "SPEED_NORM", severity := .WARN
      message := "Large speed detected (check units/reference)."
      details := some [("primary_v_mps", .num p_v), ("secondary_v_mps", .num s_v)] }
  else
    { check_id := "SPEED_NORM", severity := .PASS
      message := "Speed norms look reasonable."
      details := some [("primary_v_mps", .num p_v), ("secondary_v_mps", .num s_v)] }

/-- Miss-distance consistency check (validation.py lines 109-124).
The epsilon 1e-9 flooring the relative-error denominator is written as
the exact fraction 1/1000000000. -/
def missDistanceCheck (msg : ConjunctionMessage) (rules : Rules) : Finding :=
  match msg.miss_distance_m with
  | some md =>
      let abs_err := |md - miss_est msg|
      let rel_err := abs_err / max (miss_est msg) (1/1000000000)
      let tol := max rules.consistency.miss_distance_abs_tol_m
                     (rules.consistency.miss_distance_rel_tol_frac * miss_est msg)
      if abs_err > tol then
        { check_id := "MISS_DISTANCE_CONSISTENCY", severity := .FAIL
          message := "miss_distance_m inconsistent with relative position norm."
          details := some [("miss_distance_m", .num md),
                           ("estimated_m", .num (miss_est msg)),
                           ("abs_err_m", .num abs_err),
                           ("rel_err", .num rel_err),
                           ("tolerance_m", .num tol)] }
      else
        { check_id := "MISS_DISTANCE_CONSISTENCY", severity := .PASS
          message := "miss_distance_m consistent with relative position norm."
          details := some [("abs_err_m", .num abs_err),
                           ("tolerance_m", .num tol)] }
  | none =>
      { check_id := "MISS_DISTANCE_PRESENT", severity := .WARN
        message := "miss_distance_m not provided (cannot cross-check)."
        details := none }

/-- Relative-speed consistency check (validation.py lines 126-141); a
tolerance breach yields WARN, not FAIL. -/
def relSpeedCheck (msg : ConjunctionMessage) (rules : Rules) : Finding :=
  match msg.relative_speed_mps with
  | some rs =>
      let abs_err := |rs - rel_speed_est msg|
      let rel_err := abs_err / max (rel_speed_est msg) (1/1000000000)
      let tol := max rules.consistency.rel_speed_abs_tol_mps
                     (rules.consistency.rel_speed_rel_tol_frac * rel_speed_est msg)
      if abs_err > tol then
        { check_id := "REL_SPEED_CONSISTENCY", severity := .WARN
          message := "relative_speed_mps differs from norm of relative velocity (review)."
          details := some [("relative_speed_mps", .num rs),
                           ("estimated_mps", .num (rel_speed_est msg)),
                           ("abs_err_mps", .num abs_err),
                           ("rel_err", .num rel_err),
                           ("tolerance_mps", .num tol)] }
      else
        { check_id := "REL_SPEED_CONSISTENCY", severity := .PASS
          message := "relative_speed_mps consistent with relative velocity norm."
          details := some [("abs_err_mps", .num abs_err),
                           ("tolerance_mps", .num tol)] }
  | none =>
      { check_id := "REL_SPEED_PRESENT", severity := .WARN
        message := "relative_speed_mps not provided (cannot cross-check)."
        details := none }

/-- Covariance symmetry finding (validation.py lines 149-154), applied to
the reshaped matrix C. -/
def covSymFinding (C : Matrix (Fin 3) (Fin 3) ℝ) (rules : Rules) : Finding :=
  let sym_err := matAbsMax (C - Cᵀ)
  if sym_err > rules.covariance.symmetry_tol then
    { check_id := "COV_SYMMETRY", severity := .FAIL
      message := "Covariance is not symmetric within tolerance."
      details := some [("max_abs_C_minus_CT", .num sym_err)] }
  else
    { check_id := "COV_SYMMETRY", severity := .PASS
      message := "Covariance symmetry OK."
      details := some [("max_abs_C_minus_CT", .num sym_err)] }

/-- Covariance PSD finding (validation.py lines 156-163), applied to the
symmetrized matrix Csym. -/
def covPsdFinding (Csym : Matrix (Fin 3) (Fin 3) ℝ) (rules : Rules) : Finding :=
  let min_eig := minEig Csym
  if min_eig < rules.covariance.psd_eig_tol then
    { check_id := "COV_PSD", severity := .FAIL
      message := "Covariance not positive semi-definite (eigenvalue too negative)."
      details := some [("min_eigenvalue", .num min_eig)] }
  else
    { check_id := "COV_PSD", severity := .PASS
      message := "Covariance PSD check OK."
      details := some [("min_eigenvalue", .num min_eig)] }

/-- Covariance diagonal / standard-deviation finding (validation.py lines
165-177), applied to the symmetrized matrix Csym: if any diagonal entry
is negative, COV_DIAG FAIL; otherwise the COV_STD magnitude check on the
square roots of the diagonal. -/
def covDiagStdFinding (Csym : Matrix (Fin 3) (Fin 3) ℝ) (rules : Rules) : Finding :=
  let d0 := Csym 0 0
  let d1 := Csym 1 1
  let d2 := Csym 2 2
  if d0 < 0 ∨ d1 < 0 ∨ d2 < 0 then
    { check_id := "COV_DIAG", severity := .FAIL
      message := "Covariance diagonal contains negative values."
      details := some [("diag", .vals [d0, d1, d2])] }
  else
    let max_std := max (max (Real.sqrt d0) (Real.sqrt d1)) (Real.sqrt d2)
    if max_std > rules.covariance.std_fail_m then
      { check_id := "COV_STD", severity := .FAIL
        message := "Covariance std is extremely large (units/reference likely wrong)."
        details := some [("max_std_m", .num max_std)] }
    else if max_std > rules.covariance.std_warn_m then
      { check_id := "COV_STD", severity := .WARN
        message := "Covariance std is large (review)."
        details := some [("max_std_m", .num max_std)] }
    else
      { check_id := "COV_STD", severity := .PASS
        message := "Covariance std magnitudes look reasonable."
        details := some [("max_std_m", .num max_std)] }

/-- Covariance sanity block (validation.py lines 144-177): one WARN when
the covariance is absent, otherwise the three findings in order. -/
def covChecks (msg : ConjunctionMessage) (rules : Rules) : List Finding :=
  match msg.rel_pos_cov_m2 with
  | none =>
      [{ check_id := "COV_PRESENT", severity := .WARN
         message := "rel_pos_cov_m2 not provided (cannot assess uncertainty validity)."
         details := none }]
  | some flat9 =>
      let C := cov3x3 flat9
      let Csym := covSymmetrize C
      [covSymFinding C rules, covPsdFinding Csym rules, covDiagStdFinding Csym rules]

/-- Number of findings of a given severity: the per-severity tally of the
summary loop (validation.py lines 180-182). -/
def countSev (fs : List Finding) (s : Severity) : ℕ :=
  (fs.filter fun f => decide (f.severity = s)).length

/-- Number of findings carrying a given check_id (specification
vocabulary used to state the claims). -/
def countId (fs : List Finding) (cid : String) : ℕ :=
  (fs.filter fun f => decide (f.check_id = cid)).length

/-- ValidationReport (validation.py lines 24-33); the summary dictionary
with lower-cased severity keys is the association list in its insertion
order pass, warn, fail.  report_time_utc (wall clock) is not modelled. -/
structure ValidationReport where
  message_id : String
  creation_time_utc : ℝ
  tca_utc : ℝ
  findings : List Finding
  summary : List (String × ℕ)
  ok : Bool

/-- validate_message (validation.py lines 49-193): the eight checks in
source order followed by the summary aggregation; ok is the boolean
counts FAIL == 0. -/
def validate_message (msg : ConjunctionMessage) (rules : Rules) : ValidationReport :=
  let findings : List Finding :=
    idCheck msg :: timeCheck msg rules :: frameCheck msg ::
      posNormCheck msg rules :: speedNormCheck msg rules ::
      missDistanceCheck msg rules :: relSpeedCheck msg rules ::
      covChecks msg rules
  { message_id := msg.message_id
    creation_time_utc := msg.creation_time_utc
    tca_utc := msg.tca_utc
    findings := findings
    summary := [("pass", countSev findings .PASS),
                ("warn", countSev findings .WARN),
                ("fail", countSev findings .FAIL)]
    ok := countSev findings .FAIL == 0 }

/-!
Safe variants: the partial numeric primitives of the Python runtime are
modelled as Option-valued (square root of a negative number, division by
zero).  Each safe check evaluates every partial primitive that the
corresponding source check evaluates, in the same branch structure, and
yields the finding of the total model when all of them succeed.  The
no-raise claim is that the safe evaluation always succeeds.
-/

/-- Square root as a fallible primitive: defined only on nonnegative
arguments. -/
def safeSqrt (x : ℝ) : Option ℝ :=
  if x < 0 then none else some (Real.sqrt x)

/-- Division as a fallible primitive: defined only for a nonzero
denominator (Python float division raises ZeroDivisionError on 0.0). -/
def safeDiv (a b : ℝ) : Option ℝ :=
  if b = 0 then none else some (a / b)

/-- Fallible Euclidean norm: the square root applied to the sum of
squares. -/
def norm3Safe (v : Vec3) : Option ℝ :=
  safeSqrt (v.x ^ 2 + v.y ^ 2 + v.z ^ 2)

/-- Position-norm check with fallible norms (validation.py lines 88-96):
both position norms are evaluated. -/
def posNormCheckSafe (msg : ConjunctionMessage) (rules : Rules) : Option Finding := do
  let _ ← norm3Safe msg.primary.position_m
  let _ ← norm3Safe msg.secondary.position_m
  pure (posNormCheck msg rules)

/-- Speed-norm check with fallible norms (validation.py lines 90-101). -/
def speedNormCheckSafe (msg : ConjunctionMessage) (rules : Rules) : Option Finding := do
  let _ ← norm3Safe msg.primary.velocity_mps
  let _ ← norm3Safe msg.secondary.velocity_mps
  pure (speedNormCheck msg rules)

/-- Miss-distance check with fallible primitives (validation.py lines
104-124): the relative-position norm is always evaluated; when the field
is present, the relative error divides by the floored denominator. -/
def missDistanceCheckSafe (msg : ConjunctionMessage) (rules : Rules) : Option Finding := do
  let m ← norm3Safe (Vec3.sub msg.secondary.position_m msg.primary.position_m)
  match msg.miss_distance_m with
  | some md => do
      let _ ← safeDiv (|md - m|) (max m (1/1000000000))
      pure (missDistanceCheck msg rules)
  | none => pure (missDistanceCheck msg rules)

/-- Relative-speed check with fallible primitives (validation.py lines
105-141). -/
def relSpeedCheckSafe (msg : ConjunctionMessage) (rules : Rules) : Option Finding := do
  let m ← norm3Safe (Vec3.sub msg.secondary.velocity_mps msg.primary.velocity_mps)
  match msg.relative_speed_mps with
  | some rs => do
      let _ ← safeDiv (|rs - m|) (max m (1/1000000000))
      pure (relSpeedCheck msg rules)
  | none => pure (relSpeedCheck msg rules)

/-- The fallible primitives of the diagonal / standard-deviation branch
(validation.py lines 165-177): the square roots of the diagonal are
evaluated only in the branch where no diagonal entry is negative. -/
def covDiagStdSafe (Csym : Matrix (Fin 3) (Fin 3) ℝ) : Option Unit :=
  if Csym 0 0 < 0 ∨ Csym 1 1 < 0 ∨ Csym 2 2 < 0 then
    pure ()
  else do
    let _ ← safeSqrt (Csym 0 0)
    let _ ← safeSqrt (Csym 1 1)
    let _ ← safeSqrt (Csym 2 2)
    pure ()

/-- Covariance block with fallible primitives (validation.py lines
144-177). -/
def covChecksSafe (msg : ConjunctionMessage) (rules : Rules) : Option (List Finding) :=
  match msg.rel_pos_cov_m2 with
  | none => pure (covChecks msg rules)
  | some flat9 => do
      let _ ← covDiagStdSafe (covSymmetrize (cov3x3 flat9))
      pure (covChecks msg rules)

/-- validate_message with every partial primitive evaluated through the
Option monad; yields the report of the total model when no primitive
fails. -/
def validate_messageSafe (msg : ConjunctionMessage) (rules : Rules) :
    Option ValidationReport := do
  let f4 ← posNormCheckSafe msg rules
  let f5 ← speedNormCheckSafe msg rules
  let f6 ← missDistanceCheckSafe msg rules
  let f7 ← relSpeedCheckSafe msg rules
  let fcov ← covChecksSafe msg rules
  let findings : List Finding :=
    idCheck msg :: timeCheck msg rules :: frameCheck msg ::
      f4 :: f5 :: f6 :: f7 :: fcov
  pure { message_id := msg.message_id
         creation_time_utc := msg.creation_time_utc
         tca_utc := msg.tca_utc
         findings := findings
         summary := [("pass", countSev findings .PASS),
                     ("warn", countSev findings .WARN),
                     ("fail", countSev findings .FAIL)]
         ok := countSev findings .FAIL == 0 }

/-! Concrete example messages used by witnesses and counterexamples. -/

/-- The zero vector. -/
def zeroVec : Vec3 := ⟨0, 0, 0⟩

/-- A benign message: distinct objects, creation two hours before TCA,
zero states, all optional fields absent. -/
def msgPlain : ConjunctionMessage :=
  { message_id := "MSG-PLAIN"
    creation_time_utc := 0
    tca_utc := 7200
    primary := { object_id := "OBJ-A", position_m := zeroVec
                 velocity_mps := zeroVec, frame := .TEME }
    secondary := { object_id := "OBJ-B", position_m := zeroVec
                   velocity_mps := zeroVec, frame := .TEME }
    miss_distance_m := none
    relative_speed_mps := none
    rel_pos_cov_m2 := none }

/-- msgPlain with the creation time after TCA. -/
def msgLate : ConjunctionMessage :=
  { msgPlain with message_id := "MSG-LATE", creation_time_utc := 7200, tca_utc := 0 }

/-- msgPlain with a zero miss distance supplied (the relative position is
zero, so the supplied value is exact). -/
def msgMissZero : ConjunctionMessage :=
  { msgPlain with message_id := "MSG-MISS0", miss_distance_m := some 0 }

/-- A message whose supplied miss distance (6) is exactly double the
relative-position norm (3): the secondary is offset by (3, 0, 0). -/
def msgDoubleSmall : ConjunctionMessage :=
  { msgPlain with
      message_id := "MSG-DBL-SMALL"
      secondary := { object_id := "OBJ-B", position_m := ⟨3, 0, 0⟩
                     velocity_mps := zeroVec, frame := .TEME }
      miss_distance_m := some 6 }

/-- A message whose supplied miss distance (18) is exactly double the
relative-position norm (9): the secondary is offset by (0, 0, 9). -/
def msgDoubleBig : ConjunctionMessage :=
  { msgPlain with
      message_id := "MSG-DBL-BIG"
      secondary := { object_id := "OBJ-B", position_m := ⟨0, 0, 9⟩
                     velocity_mps := zeroVec, frame := .TEME }
      miss_distance_m := some 18 }

/-- Scenario A shaped message: distinct objects, matching frames, two
hours of lead time, position norms near 7,000,000 m, speeds 7,500 m/s,
exact miss distance, no relative speed, no covariance. -/
def msgScenarioA : ConjunctionMessage :=
  { message_id := "MSG-A"
    creation_time_utc := 0
    tca_utc := 7200
    primary := { object_id := "OBJ-A", position_m := ⟨7000000, 0, 0⟩
                 velocity_mps := ⟨7500, 0, 0⟩, frame := .TEME }
    secondary := { object_id := "OBJ-B", position_m := ⟨7000000, 0, 5⟩
                   velocity_mps := ⟨7500, 0, 0⟩, frame := .TEME }
    miss_distance_m := some 5
    relative_speed_mps := none
    rel_pos_cov_m2 := none }

/-- msgScenarioA with a consistent relative speed supplied as well (the
relative velocity is zero). -/
def msgScenarioA' : ConjunctionMessage :=
  { msgScenarioA with message_id := "MSG-A2", relative_speed_mps := some 0 }

/-- A message carrying a covariance whose (0,0) diagonal entry is -1. -/
def msgNegDiag : ConjunctionMessage :=
  { msgPlain with
      message_id := "MSG-NEGDIAG"
      rel_pos_cov_m2 := some ⟨-1, 0, 0, 0, 0, 0, 0, 0, 0⟩ }

end

/-! ## Structural lemmas about the report assembly -/

theorem findings_eq (msg : ConjunctionMessage) (rules : Rules) :
    (validate_message msg rules).findings =
      idCheck msg :: timeCheck msg rules :: frameCheck msg ::
        posNormCheck msg rules :: speedNormCheck msg rules ::
        missDistanceCheck msg rules :: relSpeedCheck msg rules ::
        covChecks msg rules := rfl

theorem ok_eq (msg : ConjunctionMessage) (rules : Rules) :
    (validate_message msg rules).ok =
      (countSev (validate_message msg rules).findings .FAIL == 0) := rfl

theorem summary_eq (msg : ConjunctionMessage) (rules : Rules) :
    (validate_message msg rules).summary =
      [("pass", countSev (validate_message msg rules).findings .PASS),
       ("warn", countSev (validate_message msg rules).findings .WARN),
       ("fail", countSev (validate_message msg rules).findings .FAIL)] := rfl

theorem countSev_nil (s : Severity) : countSev [] s = 0 := rfl

theorem countSev_cons (f : Finding) (fs : List Finding) (s : Severity) :
    countSev (f :: fs) s = countSev fs s + if f.severity = s then 1 else 0 := by
  by_cases h : f.severity = s <;> simp [countSev, List.filter_cons, h]

theorem countSev_eq_zero_iff (fs : List Finding) (s : Severity) :
    countSev fs s = 0 ↔ ∀ f ∈ fs, f.severity ≠ s := by
  simp [countSev, List.length_eq_zero, List.filter_eq_nil_iff]

theorem countSev_total (fs : List Finding) :
    countSev fs .PASS + countSev fs .WARN + countSev fs .FAIL = fs.length := by
  induction fs with
  | nil => rfl
  | cons f fs ih =>
      cases hf : f.severity <;> simp [countSev_cons, hf] <;> omega

theorem countId_nil (cid : String) : countId [] cid = 0 := rfl

theorem countId_cons (f : Finding) (fs : List Finding) (cid : String) :
    countId (f :: fs) cid = countId fs cid + if f.check_id = cid then 1 else 0 := by
  by_cases h : f.check_id = cid <;> simp [countId, List.filter_cons, h]

theorem countId_eq_zero_iff (fs : List Finding) (cid : String) :
    countId fs cid = 0 ↔ ∀ f ∈ fs, f.check_id ≠ cid := by
  simp [countId, List.length_eq_zero, List.filter_eq_nil_iff]

theorem validate_ok_true_iff (msg : ConjunctionMessage) (rules : Rules) :
    (validate_message msg rules).ok = true ↔
      ∀ f ∈ (validate_message msg rules).findings, f.severity ≠ .FAIL := by
  rw [ok_eq, beq_iff_eq, countSev_eq_zero_iff]

theorem validate_ok_false_of_fail (msg : ConjunctionMessage) (rules : Rules)
    (f : Finding) (hf : f ∈ (validate_message msg rules).findings)
    (hsev : f.severity = .FAIL) : (validate_message msg rules).ok = false := by
  rw [ok_eq, beq_eq_false_iff_ne]
  rw [Ne, countSev_eq_zero_iff]
  intro h
  exact h f hf hsev

/-! ## Per-check characterization lemmas -/

theorem idCheck_check_id (msg : ConjunctionMessage) :
    (idCheck msg).check_id = "ID_DISTINCT" := by
  unfold idCheck; split <;> rfl

theorem idCheck_sev_pass (msg : ConjunctionMessage)
    (h : msg.primary.object_id ≠ msg.secondary.object_id) :
    (idCheck msg).severity = .PASS := by
  unfold idCheck; rw [if_neg h]

theorem timeCheck_check_id (msg : ConjunctionMessage) (rules : Rules) :
    (timeCheck msg rules).check_id = "TIME_ORDER" ∨
      (timeCheck msg rules).check_id = "LEAD_TIME" := by
  simp only [timeCheck]; split_ifs <;> simp

theorem timeCheck_late (msg : ConjunctionMessage) (rules : Rules)
    (h : msg.creation_time_utc ≥ msg.tca_utc) :
    timeCheck msg rules =
      { check_id := "TIME_ORDER", severity := .FAIL
        message := "creation_time_utc is not before tca_utc."
        details := some [("creation_time_utc", .num msg.creation_time_utc),
                         ("tca_utc", .num msg.tca_utc)] } := by
  simp only [timeCheck]; rw [if_pos h]

theorem timeCheck_early (msg : ConjunctionMessage) (rules : Rules)
    (h : ¬ msg.creation_time_utc ≥ msg.tca_utc) :
    timeCheck msg rules =
      (if msg.tca_utc - msg.creation_time_utc < rules.time.warn_if_lead_time_s_below then
        { check_id := "LEAD_TIME", severity := .WARN
          message := "Very small lead time between creation and TCA."
          details := some [("lead_time_s", .num (msg.tca_utc - msg.creation_time_utc))] }
      else
        { check_id := "LEAD_TIME", severity := .PASS
          message := "Lead time between creation and TCA is within expectations."
          details := some [("lead_time_s", .num (msg.tca_utc - msg.creation_time_utc))] }) := by
  simp only [timeCheck]; rw [if_neg h]

theorem timeCheck_sev_pass (msg : ConjunctionMessage) (rules : Rules)
    (h : ¬ msg.creation_time_utc ≥ msg.tca_utc)
    (h2 : ¬ msg.tca_utc - msg.creation_time_utc < rules.time.warn_if_lead_time_s_below) :
    (timeCheck msg rules).severity = .PASS := by
  rw [timeCheck_early msg rules h, if_neg h2]

theorem timeCheck_not_fail (msg : ConjunctionMessage) (rules : Rules)
    (h : ¬ msg.creation_time_utc ≥ msg.tca_utc) :
    (timeCheck msg rules).severity ≠ .FAIL := by
  rw [timeCheck_early msg rules h]; split <;> simp

theorem frameCheck_check_id (msg : ConjunctionMessage) :
    (frameCheck msg).check_id = "FRAME_MATCH" := by
  unfold frameCheck; split <;> rfl

theorem frameCheck_sev_pass (msg : ConjunctionMessage)
    (h : msg.primary.frame = msg.secondary.frame) :
    (frameCheck msg).severity = .PASS := by
  unfold frameCheck; rw [if_neg (by simpa using h)]

theorem frameCheck_not_fail (msg : ConjunctionMessage) :
    (frameCheck msg).severity ≠ .FAIL := by
  unfold frameCheck; split <;> simp

theorem posNormCheck_check_id (msg : ConjunctionMessage) (rules : Rules) :
    (posNormCheck msg rules).check_id = "POS_NORM" := by
  simp only [posNormCheck]; split <;> rfl

theorem posNormCheck_sev_pass (msg : ConjunctionMessage) (rules : Rules)
    (h1 : ¬ norm3 msg.primary.position_m > rules.state.max_position_norm_m_warn)
    (h2 : ¬ norm3 msg.secondary.position_m > rules.state.max_position_norm_m_warn) :
    (posNormCheck msg rules).severity = .PASS := by
  simp only [posNormCheck]
  rw [if_neg (not_or.mpr ⟨h1, h2⟩)]

theorem posNormCheck_not_fail (msg : ConjunctionMessage) (rules : Rules) :
    (posNormCheck msg rules).severity ≠ .FAIL := by
  simp only [posNormCheck]; split <;> simp

theorem speedNormCheck_check_id (msg : ConjunctionMessage) (rules : Rules) :
    (speedNormCheck msg rules).check_id = "SPEED_NORM" := by
  simp only [speedNormCheck]; split <;> rfl

theorem speedNormCheck_sev_pass (msg : ConjunctionMessage) (rules : Rules)
    (h1 : ¬ norm3 msg.primary.velocity_mps > rules.state.max_speed_mps_warn)
    (h2 : ¬ norm3 msg.secondary.velocity_mps > rules.state.max_speed_mps_warn) :
    (speedNormCheck msg rules).severity = .PASS := by
  simp only [speedNormCheck]
  rw [if_neg (not_or.mpr ⟨h1, h2⟩)]

theorem speedNormCheck_not_fail (msg : ConjunctionMessage) (rules : Rules) :
    (speedNormCheck msg rules).severity ≠ .FAIL := by
  simp only [speedNormCheck]; split <;> simp

theorem missDistanceCheck_none (msg : ConjunctionMessage) (rules : Rules)
    (h : msg.miss_distance_m = none) :
    missDistanceCheck msg rules =
      { check_id := "MISS_DISTANCE_PRESENT", severity := .WARN
        message := "miss_distance_m not provided (cannot cross-check)."
        details := none } := by
  unfold missDistanceCheck; rw [h]

theorem missDistanceCheck_some_check_id (msg : ConjunctionMessage) (rules : Rules)
    (md : ℝ) (h : msg.miss_distance_m = some md) :
    (missDistanceCheck msg rules).check_id = "MISS_DISTANCE_CONSISTENCY" := by
  simp only [missDistanceCheck, h]; split <;> rfl

theorem missDistanceCheck_some_severity (msg : ConjunctionMessage) (rules : Rules)
    (md : ℝ) (h : msg.miss_distance_m = some md) :
    (missDistanceCheck msg rules).severity =
      (if |md - miss_est msg| >
          max rules.consistency.miss_distance_abs_tol_m
              (rules.consistency.miss_distance_rel_tol_frac * miss_est msg)
       then Severity.FAIL else Severity.PASS) := by
  simp only [missDistanceCheck, h]
  by_cases hc : |md - miss_est msg| >
      max rules.consistency.miss_distance_abs_tol_m
          (rules.consistency.miss_distance_rel_tol_frac * miss_est msg)
  · rw [if_pos hc, if_pos hc]
  · rw [if_neg hc, if_neg hc]

theorem relSpeedCheck_none (msg : ConjunctionMessage) (rules : Rules)
    (h : msg.relative_speed_mps = none) :
    relSpeedCheck msg rules =
      { check_id := "REL_SPEED_PRESENT", severity := .WARN
        message := "relative_speed_mps not provided (cannot cross-check)."
        details := none } := by
  unfold relSpeedCheck; rw [h]

theorem relSpeedCheck_some_check_id (msg : ConjunctionMessage) (rules : Rules)
    (rs : ℝ) (h : msg.relative_speed_mps = some rs) :
    (relSpeedCheck msg rules).check_id = "REL_SPEED_CONSISTENCY" := by
  simp only [relSpeedCheck, h]; split <;> rfl

theorem relSpeedCheck_sev_pass (msg : ConjunctionMessage) (rules : Rules)
    (rs : ℝ) (h : msg.relative_speed_mps = some rs)
    (h2 : ¬ |rs - rel_speed_est msg| >
        max rules.consistency.rel_speed_abs_tol_mps
            (rules.consistency.rel_speed_rel_tol_frac * rel_speed_est msg)) :
    (relSpeedCheck msg rules).severity = .PASS := by
  simp only [relSpeedCheck, h]; rw [if_neg h2]

theorem relSpeedCheck_not_fail (msg : ConjunctionMessage) (rules : Rules) :
    (relSpeedCheck msg rules).severity ≠ .FAIL := by
  simp only [relSpeedCheck]
  cases msg.relative_speed_mps <;> simp only [] <;> try simp
  split <;> simp

theorem covChecks_none (msg : ConjunctionMessage) (rules : Rules)
    (h : msg.rel_pos_cov_m2 = none) :
    covChecks msg rules =
      [{ check_id := "COV_PRESENT", severity := .WARN
         message := "rel_pos_cov_m2 not provided (cannot assess uncertainty validity)."
         details := none }] := by
  unfold covChecks; rw [h]

theorem covChecks_some (msg : ConjunctionMessage) (rules : Rules)
    (c : Cov9) (h : msg.rel_pos_cov_m2 = some c) :
    covChecks msg rules =
      [covSymFinding (cov3x3 c) rules,
       covPsdFinding (covSymmetrize (cov3x3 c)) rules,
       covDiagStdFinding (covSymmetrize (cov3x3 c)) rules] := by
  unfold covChecks; rw [h]

theorem covSymFinding_check_id (C : Matrix (Fin 3) (Fin 3) ℝ) (rules : Rules) :
    (covSymFinding C rules).check_id = "COV_SYMMETRY" := by
  simp only [covSymFinding]; split <;> rfl

theorem covPsdFinding_check_id (Csym : Matrix (Fin 3) (Fin 3) ℝ) (rules : Rules) :
    (covPsdFinding Csym rules).check_id = "COV_PSD" := by
  simp only [covPsdFinding]; split <;> rfl

theorem covDiagStdFinding_neg (Csym : Matrix (Fin 3) (Fin 3) ℝ) (rules : Rules)
    (h : Csym 0 0 < 0 ∨ Csym 1 1 < 0 ∨ Csym 2 2 < 0) :
    covDiagStdFinding Csym rules =
      { check_id := "COV_DIAG", severity := .FAIL
        message := "Covariance diagonal contains negative values."
        details := some [("diag", .vals [Csym 0 0, Csym 1 1, Csym 2 2])] } := by
  simp only [covDiagStdFinding]; rw [if_pos h]

theorem covDiagStdFinding_nonneg_check_id (Csym : Matrix (Fin 3) (Fin 3) ℝ)
    (rules : Rules) (h : ¬ (Csym 0 0 < 0 ∨ Csym 1 1 < 0 ∨ Csym 2 2 < 0)) :
    (covDiagStdFinding Csym rules).check_id = "COV_STD" := by
  simp only [covDiagStdFinding]; rw [if_neg h]
  split
  · rfl
  · split <;> rfl

theorem covDiagStdFinding_nonneg_severity (Csym : Matrix (Fin 3) (Fin 3) ℝ)
    (rules : Rules) (h : ¬ (Csym 0 0 < 0 ∨ Csym 1 1 < 0 ∨ Csym 2 2 < 0)) :
    (covDiagStdFinding Csym rules).severity =
      (if max (max (Real.sqrt (Csym 0 0)) (Real.sqrt (Csym 1 1))) (Real.sqrt (Csym 2 2)) >
          rules.covariance.std_fail_m then Severity.FAIL
       else if max (max (Real.sqrt (Csym 0 0)) (Real.sqrt (Csym 1 1))) (Real.sqrt (Csym 2 2)) >
          rules.covariance.std_warn_m then Severity.WARN
       else Severity.PASS) := by
  simp only [covDiagStdFinding]; rw [if_neg h]
  by_cases h1 : max (max (Real.sqrt (Csym 0 0)) (Real.sqrt (Csym 1 1))) (Real.sqrt (Csym 2 2)) >
      rules.covariance.std_fail_m
  · rw [if_pos h1, if_pos h1]
  · rw [if_neg h1, if_neg h1]
    by_cases h2 : max (max (Real.sqrt (Csym 0 0)) (Real.sqrt (Csym 1 1))) (Real.sqrt (Csym 2 2)) >
        rules.covariance.std_warn_m
    · rw [if_pos h2, if_pos h2]
    · rw [if_neg h2, if_neg h2]

theorem covDiagStdFinding_check_id_cases (Csym : Matrix (Fin 3) (Fin 3) ℝ)
    (rules : Rules) :
    (covDiagStdFinding Csym rules).check_id = "COV_DIAG" ∨
      (covDiagStdFinding Csym rules).check_id = "COV_STD" := by
  simp only [covDiagStdFinding]; split_ifs <;> simp

/-! ## Numeric lemmas about the norm -/

theorem norm3_nonneg (v : Vec3) : 0 ≤ norm3 v := Real.sqrt_nonneg _

theorem norm3_eq_of (v : Vec3) (r : ℝ) (hr : 0 ≤ r)
    (h : v.x ^ 2 + v.y ^ 2 + v.z ^ 2 = r ^ 2) : norm3 v = r := by
  rw [norm3, h, Real.sqrt_sq hr]

theorem norm3_le_of (v : Vec3) (r : ℝ) (hr : 0 ≤ r)
    (h : v.x ^ 2 + v.y ^ 2 + v.z ^ 2 ≤ r ^ 2) : norm3 v ≤ r := by
  rw [norm3]
  exact le_trans (Real.sqrt_le_sqrt h) (le_of_eq (Real.sqrt_sq hr))

theorem norm3_ge_of (v : Vec3) (r : ℝ) (hr : 0 ≤ r)
    (h : r ^ 2 ≤ v.x ^ 2 + v.y ^ 2 + v.z ^ 2) : r ≤ norm3 v := by
  rw [norm3]
  calc r = Real.sqrt (r ^ 2) := (Real.sqrt_sq hr).symm
    _ ≤ _ := Real.sqrt_le_sqrt h

theorem lookup_fail_summary (msg : ConjunctionMessage) (rules : Rules) :
    List.lookup "fail" (validate_message msg rules).summary =
      some (countSev (validate_message msg rules).findings .FAIL) := by
  rw [summary_eq]; rfl

theorem lookup_warn_summary (msg : ConjunctionMessage) (rules : Rules) :
    List.lookup "warn" (validate_message msg rules).summary =
      some (countSev (validate_message msg rules).findings .WARN) := by
  rw [summary_eq]; rfl

/-! ## Claim theorems -/

/-- C1: for every message and thresholds pair, the ok flag of the report
returned by validate_message agrees with the summary fail count being
zero, and equivalently with no finding of severity FAIL existing. -/
theorem C1_verdict_consistency (msg : ConjunctionMessage) (rules : Rules) :
    ((validate_message msg rules).ok = true ↔
        List.lookup "fail" (validate_message msg rules).summary = some 0)
    ∧ ((validate_message msg rules).ok = true ↔
        ∀ f ∈ (validate_message msg rules).findings, f.severity ≠ .FAIL) := by
  constructor
  · rw [ok_eq, lookup_fail_summary msg rules]
    simp
  · exact validate_ok_true_iff msg rules

/-- C2: the summary has exactly the keys pass, warn, fail (in that
order), and the three counts sum to the number of findings. -/
theorem C2_summary_conservation (msg : ConjunctionMessage) (rules : Rules) :
    (validate_message msg rules).summary.map Prod.fst = ["pass", "warn", "fail"]
    ∧ ((validate_message msg rules).summary.map Prod.snd).sum =
        (validate_message msg rules).findings.length := by
  refine ⟨by rw [summary_eq]; rfl, ?_⟩
  rw [summary_eq]
  have h := countSev_total (validate_message msg rules).findings
  simp only [List.map_cons, List.map_nil, List.sum_cons, List.sum_nil]
  omega

theorem hit_timeCheck_zero (msg : ConjunctionMessage) (rules : Rules) (cid : String)
    (h1 : cid ≠ "TIME_ORDER") (h2 : cid ≠ "LEAD_TIME") :
    (if (timeCheck msg rules).check_id = cid then 1 else 0) = 0 := by
  rcases timeCheck_check_id msg rules with ht | ht <;> rw [ht]
  · exact if_neg (Ne.symm h1)
  · exact if_neg (Ne.symm h2)

theorem hit_missCheck_zero (msg : ConjunctionMessage) (rules : Rules) (cid : String)
    (h1 : cid ≠ "MISS_DISTANCE_CONSISTENCY") (h2 : cid ≠ "MISS_DISTANCE_PRESENT") :
    (if (missDistanceCheck msg rules).check_id = cid then 1 else 0) = 0 := by
  rcases hm : msg.miss_distance_m with _ | md
  · rw [missDistanceCheck_none msg rules hm]; exact if_neg (Ne.symm h2)
  · rw [missDistanceCheck_some_check_id msg rules md hm]; exact if_neg (Ne.symm h1)

theorem hit_relSpeedCheck_zero (msg : ConjunctionMessage) (rules : Rules) (cid : String)
    (h1 : cid ≠ "REL_SPEED_CONSISTENCY") (h2 : cid ≠ "REL_SPEED_PRESENT") :
    (if (relSpeedCheck msg rules).check_id = cid then 1 else 0) = 0 := by
  rcases hr : msg.relative_speed_mps with _ | rs
  · rw [relSpeedCheck_none msg rules hr]; exact if_neg (Ne.symm h2)
  · rw [relSpeedCheck_some_check_id msg rules rs hr]; exact if_neg (Ne.symm h1)

theorem countId_covChecks_zero (msg : ConjunctionMessage) (rules : Rules) (cid : String)
    (h1 : cid ≠ "COV_PRESENT") (h2 : cid ≠ "COV_SYMMETRY") (h3 : cid ≠ "COV_PSD")
    (h4 : cid ≠ "COV_DIAG") (h5 : cid ≠ "COV_STD") :
    countId (covChecks msg rules) cid = 0 := by
  rcases hc : msg.rel_pos_cov_m2 with _ | c
  · rw [covChecks_none msg rules hc]
    simp [countId_cons, countId_nil, Ne.symm h1]
  · rw [covChecks_some msg rules c hc]
    rcases covDiagStdFinding_check_id_cases (covSymmetrize (cov3x3 c)) rules with hd | hd <;>
      simp [countId_cons, countId_nil, covSymFinding_check_id, covPsdFinding_check_id, hd,
        Ne.symm h2, Ne.symm h3, Ne.symm h4, Ne.symm h5]

/-- C10: the findings list has 8 elements when the covariance is absent
and 10 when it is present, and its first finding is the identity
distinctness finding. -/
theorem C10_findings_shape (msg : ConjunctionMessage) (rules : Rules) :
    (msg.rel_pos_cov_m2 = none → (validate_message msg rules).findings.length = 8)
    ∧ (∀ c : Cov9, msg.rel_pos_cov_m2 = some c →
        (validate_message msg rules).findings.length = 10)
    ∧ ∃ f : Finding, (validate_message msg rules).findings.head? = some f
        ∧ f.check_id = "ID_DISTINCT" := by
  refine ⟨?_, ?_, ?_⟩
  · intro h; rw [findings_eq, covChecks_none msg rules h]; rfl
  · intro c h; rw [findings_eq, covChecks_some msg rules c h]; rfl
  · exact ⟨idCheck msg, by rw [findings_eq]; rfl, idCheck_check_id msg⟩

/-- Witness for C10 at two concrete messages, one without and one with a
covariance. -/
theorem C10_witness :
    (validate_message msgPlain defaultRules).findings.length = 8
    ∧ (validate_message msgNegDiag defaultRules).findings.length = 10 :=
  ⟨(C10_findings_shape msgPlain defaultRules).1 rfl,
   (C10_findings_shape msgNegDiag defaultRules).2.1 _ rfl⟩

/-- C3: when an optional field is absent, none of the corresponding
comparison findings appear and exactly one WARN presence finding appears
instead, for each of miss_distance_m, relative_speed_mps and
rel_pos_cov_m2. -/
theorem C3_presence_gating (msg : ConjunctionMessage) (rules : Rules) :
    (msg.miss_distance_m = none →
        countId (validate_message msg rules).findings "MISS_DISTANCE_CONSISTENCY" = 0
        ∧ countId (validate_message msg rules).findings "MISS_DISTANCE_PRESENT" = 1
        ∧ ({ check_id := "MISS_DISTANCE_PRESENT", severity := .WARN
             message := "miss_distance_m not provided (cannot cross-check)."
             details := none } : Finding) ∈ (validate_message msg rules).findings)
    ∧ (msg.relative_speed_mps = none →
        countId (validate_message msg rules).findings "REL_SPEED_CONSISTENCY" = 0
        ∧ countId (validate_message msg rules).findings "REL_SPEED_PRESENT" = 1
        ∧ ({ check_id := "REL_SPEED_PRESENT", severity := .WARN
             message := "relative_speed_mps not provided (cannot cross-check)."
             details := none } : Finding) ∈ (validate_message msg rules).findings)
    ∧ (msg.rel_pos_cov_m2 = none →
        countId (validate_message msg rules).findings "COV_SYMMETRY" = 0
        ∧ countId (validate_message msg rules).findings "COV_PSD" = 0
        ∧ countId (validate_message msg rules).findings "COV_DIAG" = 0
        ∧ countId (validate_message msg rules).findings "COV_STD" = 0
        ∧ countId (validate_message msg rules).findings "COV_PRESENT" = 1
        ∧ ({ check_id := "COV_PRESENT", severity := .WARN
             message := "rel_pos_cov_m2 not provided (cannot assess uncertainty validity)."
             details := none } : Finding) ∈ (validate_message msg rules).findings) := by
  refine ⟨?_, ?_, ?_⟩
  · intro h
    have hm := missDistanceCheck_none msg rules h
    refine ⟨?_, ?_, ?_⟩
    · rw [findings_eq]
      simp only [countId_cons, countId_nil]
      rw [countId_covChecks_zero msg rules _ (by decide) (by decide) (by decide) (by decide)
            (by decide),
          hit_timeCheck_zero msg rules _ (by decide) (by decide),
          hit_relSpeedCheck_zero msg rules _ (by decide) (by decide), hm]
      simp [idCheck_check_id, frameCheck_check_id, posNormCheck_check_id,
        speedNormCheck_check_id]
    · rw [findings_eq]
      simp only [countId_cons, countId_nil]
      rw [countId_covChecks_zero msg rules _ (by decide) (by decide) (by decide) (by decide)
            (by decide),
          hit_timeCheck_zero msg rules _ (by decide) (by decide),
          hit_relSpeedCheck_zero msg rules _ (by decide) (by decide), hm]
      simp [idCheck_check_id, frameCheck_check_id, posNormCheck_check_id,
        speedNormCheck_check_id]
    · rw [findings_eq, hm]
      exact List.mem_cons_of_mem _ (List.mem_cons_of_mem _ (List.mem_cons_of_mem _
        (List.mem_cons_of_mem _ (List.mem_cons_of_mem _ (List.mem_cons_self _ _)))))
  · intro h
    have hr := relSpeedCheck_none msg rules h
    refine ⟨?_, ?_, ?_⟩
    · rw [findings_eq]
      simp only [countId_cons, countId_nil]
      rw [countId_covChecks_zero msg rules _ (by decide) (by decide) (by decide) (by decide)
            (by decide),
          hit_timeCheck_zero msg rules _ (by decide) (by decide),
          hit_missCheck_zero msg rules _ (by decide) (by decide), hr]
      simp [idCheck_check_id, frameCheck_check_id, posNormCheck_check_id,
        speedNormCheck_check_id]
    · rw [findings_eq]
      simp only [countId_cons, countId_nil]
      rw [countId_covChecks_zero msg rules _ (by decide) (by decide) (by decide) (by decide)
            (by decide),
          hit_timeCheck_zero msg rules _ (by decide) (by decide),
          hit_missCheck_zero msg rules _ (by decide) (by decide), hr]
      simp [idCheck_check_id, frameCheck_check_id, posNormCheck_check_id,
        speedNormCheck_check_id]
    · rw [findings_eq, hr]
      exact List.mem_cons_of_mem _ (List.mem_cons_of_mem _ (List.mem_cons_of_mem _
        (List.mem_cons_of_mem _ (List.mem_cons_of_mem _ (List.mem_cons_of_mem _
          (List.mem_cons_self _ _))))))
  · intro h
    have hcov := covChecks_none msg rules h
    have base : ∀ cid : String, cid ≠ "ID_DISTINCT" → cid ≠ "TIME_ORDER" →
        cid ≠ "LEAD_TIME" → cid ≠ "FRAME_MATCH" → cid ≠ "POS_NORM" →
        cid ≠ "SPEED_NORM" → cid ≠ "MISS_DISTANCE_CONSISTENCY" →
        cid ≠ "MISS_DISTANCE_PRESENT" → cid ≠ "REL_SPEED_CONSISTENCY" →
        cid ≠ "REL_SPEED_PRESENT" → cid ≠ "COV_PRESENT" →
        countId (validate_message msg rules).findings cid = 0 := by
      intro cid n1 n2 n3 n4 n5 n6 n7 n8 n9 n10 n11
      rw [findings_eq]
      simp only [countId_cons, countId_nil]
      rw [hit_timeCheck_zero msg rules _ n2 n3,
          hit_missCheck_zero msg rules _ n7 n8,
          hit_relSpeedCheck_zero msg rules _ n9 n10, hcov]
      simp [countId_cons, countId_nil, idCheck_check_id, frameCheck_check_id,
        posNormCheck_check_id, speedNormCheck_check_id,
        Ne.symm n1, Ne.symm n4, Ne.symm n5, Ne.symm n6, Ne.symm n11]
    refine ⟨base _ (by decide) (by decide) (by decide) (by decide) (by decide) (by decide)
        (by decide) (by decide) (by decide) (by decide) (by decide),
      base _ (by decide) (by decide) (by decide) (by decide) (by decide) (by decide)
        (by decide) (by decide) (by decide) (by decide) (by decide),
      base _ (by decide) (by decide) (by decide) (by decide) (by decide) (by decide)
        (by decide) (by decide) (by decide) (by decide) (by decide),
      base _ (by decide) (by decide) (by decide) (by decide) (by decide) (by decide)
        (by decide) (by decide) (by decide) (by decide) (by decide), ?_, ?_⟩
    · rw [findings_eq]
      simp only [countId_cons, countId_nil]
      rw [hit_timeCheck_zero msg rules _ (by decide) (by decide),
          hit_missCheck_zero msg rules _ (by decide) (by decide),
          hit_relSpeedCheck_zero msg rules _ (by decide) (by decide), hcov]
      simp [countId_cons, countId_nil, idCheck_check_id, frameCheck_check_id,
        posNormCheck_check_id, speedNormCheck_check_id]
    · rw [findings_eq, hcov]
      exact List.mem_cons_of_mem _ (List.mem_cons_of_mem _ (List.mem_cons_of_mem _
        (List.mem_cons_of_mem _ (List.mem_cons_of_mem _ (List.mem_cons_of_mem _
          (List.mem_cons_of_mem _ (List.mem_cons_self _ _)))))))

/-- Witness for C3 at a concrete message with all three optional fields
absent. -/
theorem C3_witness :
    countId (validate_message msgPlain defaultRules).findings "MISS_DISTANCE_CONSISTENCY" = 0
    ∧ countId (validate_message msgPlain defaultRules).findings "REL_SPEED_CONSISTENCY" = 0
    ∧ countId (validate_message msgPlain defaultRules).findings "COV_STD" = 0
    ∧ countId (validate_message msgPlain defaultRules).findings "MISS_DISTANCE_PRESENT" = 1 :=
  ⟨((C3_presence_gating msgPlain defaultRules).1 rfl).1,
   ((C3_presence_gating msgPlain defaultRules).2.1 rfl).1,
   ((C3_presence_gating msgPlain defaultRules).2.2 rfl).2.2.2.1,
   ((C3_presence_gating msgPlain defaultRules).1 rfl).2.1⟩

/-- C4: with miss_distance_m present, the unique MISS_DISTANCE_CONSISTENCY
finding is FAIL exactly when the absolute error exceeds the tolerance and
PASS otherwise; an absolute error exactly equal to the tolerance yields
PASS. -/
theorem C4_tolerance_boundary (msg : ConjunctionMessage) (rules : Rules) (md : ℝ)
    (h : msg.miss_distance_m = some md) :
    countId (validate_message msg rules).findings "MISS_DISTANCE_CONSISTENCY" = 1
    ∧ ∃ f ∈ (validate_message msg rules).findings,
        f.check_id = "MISS_DISTANCE_CONSISTENCY"
        ∧ f.severity =
            (if |md - miss_est msg| >
                max rules.consistency.miss_distance_abs_tol_m
                    (rules.consistency.miss_distance_rel_tol_frac * miss_est msg)
             then Severity.FAIL else Severity.PASS)
        ∧ (|md - miss_est msg| =
              max rules.consistency.miss_distance_abs_tol_m
                  (rules.consistency.miss_distance_rel_tol_frac * miss_est msg) →
            f.severity = Severity.PASS) := by
  constructor
  · rw [findings_eq]
    simp only [countId_cons, countId_nil]
    rw [countId_covChecks_zero msg rules _ (by decide) (by decide) (by decide) (by decide)
          (by decide),
        hit_timeCheck_zero msg rules _ (by decide) (by decide),
        hit_relSpeedCheck_zero msg rules _ (by decide) (by decide),
        missDistanceCheck_some_check_id msg rules md h]
    simp [idCheck_check_id, frameCheck_check_id, posNormCheck_check_id,
      speedNormCheck_check_id]
  · refine ⟨missDistanceCheck msg rules, ?_, missDistanceCheck_some_check_id msg rules md h,
      missDistanceCheck_some_severity msg rules md h, ?_⟩
    · rw [findings_eq]
      exact List.mem_cons_of_mem _ (List.mem_cons_of_mem _ (List.mem_cons_of_mem _
        (List.mem_cons_of_mem _ (List.mem_cons_of_mem _ (List.mem_cons_self _ _)))))
    · intro heq
      rw [missDistanceCheck_some_severity msg rules md h, if_neg (by rw [heq]; exact lt_irrefl _)]

/-- Witness for C4 at a concrete message carrying a miss distance. -/
theorem C4_witness :
    countId (validate_message msgMissZero defaultRules).findings
      "MISS_DISTANCE_CONSISTENCY" = 1 :=
  (C4_tolerance_boundary msgMissZero defaultRules 0 rfl).1

/-- C5: when creation is not before TCA, the TIME_ORDER finding is FAIL
and the report is not ok; otherwise the LEAD_TIME finding is WARN exactly
when the lead time is below the threshold and PASS otherwise, and its
details carry the numeric lead time. -/
theorem C5_time_order (msg : ConjunctionMessage) (rules : Rules) :
    (msg.creation_time_utc ≥ msg.tca_utc →
        (∃ f ∈ (validate_message msg rules).findings,
            f.check_id = "TIME_ORDER" ∧ f.severity = .FAIL)
        ∧ (validate_message msg rules).ok = false)
    ∧ (¬ msg.creation_time_utc ≥ msg.tca_utc →
        ∃ f ∈ (validate_message msg rules).findings,
          f.check_id = "LEAD_TIME"
          ∧ f.severity = (if msg.tca_utc - msg.creation_time_utc <
                rules.time.warn_if_lead_time_s_below
              then Severity.WARN else Severity.PASS)
          ∧ ∃ l, f.details = some l
              ∧ ("lead_time_s", DetailVal.num (msg.tca_utc - msg.creation_time_utc)) ∈ l) := by
  have hmem : timeCheck msg rules ∈ (validate_message msg rules).findings := by
    rw [findings_eq]
    exact List.mem_cons_of_mem _ (List.mem_cons_self _ _)
  constructor
  · intro h
    have ht := timeCheck_late msg rules h
    refine ⟨⟨timeCheck msg rules, hmem, by rw [ht], by rw [ht]⟩, ?_⟩
    exact validate_ok_false_of_fail msg rules _ hmem (by rw [ht])
  · intro h
    have ht := timeCheck_early msg rules h
    by_cases hl : msg.tca_utc - msg.creation_time_utc < rules.time.warn_if_lead_time_s_below
    · refine ⟨timeCheck msg rules, hmem, by rw [ht, if_pos hl], ?_, ?_⟩
      · rw [ht, if_pos hl, if_pos hl]
      · rw [ht, if_pos hl]
        exact ⟨_, rfl, List.mem_singleton.mpr rfl⟩
    · refine ⟨timeCheck msg rules, hmem, by rw [ht, if_neg hl], ?_, ?_⟩
      · rw [ht, if_neg hl, if_neg hl]
      · rw [ht, if_neg hl]
        exact ⟨_, rfl, List.mem_singleton.mpr rfl⟩

/-- Witness for C5: the FAIL side at a message created after its TCA, the
computable side at a message created two hours before its TCA. -/
theorem C5_witness :
    (validate_message msgLate defaultRules).ok = false
    ∧ ∃ f ∈ (validate_message msgPlain defaultRules).findings,
        f.check_id = "LEAD_TIME"
        ∧ f.severity = (if msgPlain.tca_utc - msgPlain.creation_time_utc <
              defaultRules.time.warn_if_lead_time_s_below
            then Severity.WARN else Severity.PASS)
        ∧ ∃ l, f.details = some l
            ∧ ("lead_time_s", DetailVal.num (msgPlain.tca_utc - msgPlain.creation_time_utc)) ∈ l :=
  ⟨((C5_time_order msgLate defaultRules).1 (by norm_num [msgLate, msgPlain])).2,
   (C5_time_order msgPlain defaultRules).2 (by norm_num [msgPlain])⟩

/-! ## Default-threshold projections and concrete norms -/

theorem defaultRules_time : defaultRules.time.warn_if_lead_time_s_below = 60 := rfl

theorem defaultRules_posmax : defaultRules.state.max_position_norm_m_warn = 80000000 := rfl

theorem defaultRules_speedmax : defaultRules.state.max_speed_mps_warn = 15000 := rfl

theorem defaultRules_missatol : defaultRules.consistency.miss_distance_abs_tol_m = 5 := rfl

theorem defaultRules_missrtol : defaultRules.consistency.miss_distance_rel_tol_frac = 1/10 := rfl

theorem defaultRules_relatol : defaultRules.consistency.rel_speed_abs_tol_mps = 1/5 := rfl

theorem defaultRules_relrtol : defaultRules.consistency.rel_speed_rel_tol_frac = 1/10 := rfl

theorem miss_est_msgDoubleSmall : miss_est msgDoubleSmall = 3 := by
  rw [miss_est]
  apply norm3_eq_of _ 3 (by norm_num)
  simp [msgDoubleSmall, msgPlain, zeroVec, Vec3.sub]

theorem miss_est_msgDoubleBig : miss_est msgDoubleBig = 9 := by
  rw [miss_est]
  apply norm3_eq_of _ 9 (by norm_num)
  simp [msgDoubleBig, msgPlain, zeroVec, Vec3.sub]

theorem countSev_map (fs : List Finding) (s : Severity) :
    countSev fs s = ((fs.map Finding.severity).filter fun t => decide (t = s)).length := by
  induction fs with
  | nil => rfl
  | cons f fs ih => by_cases h : f.severity = s <;>
      simp [countSev_cons, List.filter_cons, h, ih]

/-- C6 as stated is false: a message whose miss distance (6) is exactly
double the relative-position norm (3) evaluates, under default
thresholds, to a PASS miss-distance finding and an ok report, because
the doubled error (3 m) is below the 5 m absolute tolerance. -/
theorem C6_counterexample :
    msgDoubleSmall.miss_distance_m = some (2 * miss_est msgDoubleSmall)
    ∧ (validate_message msgDoubleSmall defaultRules).ok = true
    ∧ (missDistanceCheck msgDoubleSmall defaultRules).severity = .PASS := by
  have hmiss : (missDistanceCheck msgDoubleSmall defaultRules).severity = .PASS := by
    rw [missDistanceCheck_some_severity msgDoubleSmall defaultRules 6 rfl,
      miss_est_msgDoubleSmall, defaultRules_missatol, defaultRules_missrtol,
      if_neg (by norm_num)]
  refine ⟨by rw [miss_est_msgDoubleSmall]; norm_num [msgDoubleSmall, msgPlain], ?_, hmiss⟩
  rw [validate_ok_true_iff]
  intro f hf
  rw [findings_eq, covChecks_none msgDoubleSmall defaultRules rfl] at hf
  simp only [List.mem_cons, List.not_mem_nil, or_false] at hf
  rcases hf with rfl | rfl | rfl | rfl | rfl | rfl | rfl | rfl
  · rw [idCheck_sev_pass _ (by decide)]; decide
  · exact timeCheck_not_fail _ _ (by norm_num [msgDoubleSmall, msgPlain])
  · exact frameCheck_not_fail _
  · exact posNormCheck_not_fail _ _
  · exact speedNormCheck_not_fail _ _
  · rw [hmiss]; decide
  · exact relSpeedCheck_not_fail _ _
  · decide

/-- C6 amended: with default thresholds, a miss distance supplied as
exactly double the relative-position norm yields a FAIL
MISS_DISTANCE_CONSISTENCY finding and a not-ok report, provided that
norm exceeds the 5 m absolute tolerance (otherwise the doubled value is
still within tolerance). -/
theorem C6_amended (msg : ConjunctionMessage)
    (h : msg.miss_distance_m = some (2 * miss_est msg))
    (h5 : miss_est msg > 5) :
    (∃ f ∈ (validate_message msg defaultRules).findings,
        f.check_id = "MISS_DISTANCE_CONSISTENCY" ∧ f.severity = .FAIL)
    ∧ (validate_message msg defaultRules).ok = false := by
  have hm0 : (0:ℝ) ≤ miss_est msg := norm3_nonneg _
  have hmem : missDistanceCheck msg defaultRules ∈ (validate_message msg defaultRules).findings := by
    rw [findings_eq]
    exact List.mem_cons_of_mem _ (List.mem_cons_of_mem _ (List.mem_cons_of_mem _
      (List.mem_cons_of_mem _ (List.mem_cons_of_mem _ (List.mem_cons_self _ _)))))
  have hsev : (missDistanceCheck msg defaultRules).severity = .FAIL := by
    rw [missDistanceCheck_some_severity msg defaultRules _ h,
      defaultRules_missatol, defaultRules_missrtol]
    rw [if_pos ?_]
    rw [show 2 * miss_est msg - miss_est msg = miss_est msg by ring, abs_of_nonneg hm0]
    exact max_lt_iff.mpr ⟨by linarith, by linarith⟩
  exact ⟨⟨missDistanceCheck msg defaultRules, hmem,
      missDistanceCheck_some_check_id msg defaultRules _ h, hsev⟩,
    validate_ok_false_of_fail msg defaultRules _ hmem hsev⟩

/-- Witness for the amended C6 at a concrete message whose
relative-position norm is 9 and whose supplied miss distance is 18. -/
theorem C6_witness :
    (∃ f ∈ (validate_message msgDoubleBig defaultRules).findings,
        f.check_id = "MISS_DISTANCE_CONSISTENCY" ∧ f.severity = .FAIL)
    ∧ (validate_message msgDoubleBig defaultRules).ok = false :=
  C6_amended msgDoubleBig
    (by rw [miss_est_msgDoubleBig]; norm_num [msgDoubleBig, msgPlain])
    (by rw [miss_est_msgDoubleBig]; norm_num)

theorem miss_est_msgScenarioA : miss_est msgScenarioA = 5 := by
  rw [miss_est]
  apply norm3_eq_of _ 5 (by norm_num)
  simp [msgScenarioA, Vec3.sub]

theorem miss_est_msgScenarioA' : miss_est msgScenarioA' = 5 := by
  rw [miss_est]
  apply norm3_eq_of _ 5 (by norm_num)
  simp [msgScenarioA', msgScenarioA, Vec3.sub]

theorem rel_est_msgScenarioA' : rel_speed_est msgScenarioA' = 0 := by
  rw [rel_speed_est]
  apply norm3_eq_of _ 0 (by norm_num)
  simp [msgScenarioA', msgScenarioA, Vec3.sub]

/-- C7 amended: a message with distinct ids, matching frames, a two-hour
lead, position norms within the plausibility threshold (which covers
norms near 7,000,000 m), speeds within the speed threshold (covering
7,500 m/s), an exact miss distance, an exact relative speed, and no
covariance evaluates under default thresholds to an ok report whose only
WARN is the covariance-absence finding. -/
theorem C7_amended (msg : ConjunctionMessage)
    (hid : msg.primary.object_id ≠ msg.secondary.object_id)
    (hframe : msg.primary.frame = msg.secondary.frame)
    (htime : msg.tca_utc = msg.creation_time_utc + 7200)
    (hp : norm3 msg.primary.position_m ≤ 80000000)
    (hs : norm3 msg.secondary.position_m ≤ 80000000)
    (hpv : norm3 msg.primary.velocity_mps ≤ 15000)
    (hsv : norm3 msg.secondary.velocity_mps ≤ 15000)
    (hmiss : msg.miss_distance_m = some (miss_est msg))
    (hrel : msg.relative_speed_mps = some (rel_speed_est msg))
    (hcov : msg.rel_pos_cov_m2 = none) :
    (validate_message msg defaultRules).ok = true
    ∧ (validate_message msg defaultRules).summary =
        [("pass", 7), ("warn", 1), ("fail", 0)] := by
  have s1 := idCheck_sev_pass msg hid
  have s2 : (timeCheck msg defaultRules).severity = .PASS := by
    apply timeCheck_sev_pass
    · rw [htime]; intro hcon; linarith
    · rw [htime, defaultRules_time]; intro hcon; linarith
  have s3 := frameCheck_sev_pass msg hframe
  have s4 : (posNormCheck msg defaultRules).severity = .PASS :=
    posNormCheck_sev_pass msg defaultRules
      (by rw [defaultRules_posmax]; exact not_lt.mpr hp)
      (by rw [defaultRules_posmax]; exact not_lt.mpr hs)
  have s5 : (speedNormCheck msg defaultRules).severity = .PASS :=
    speedNormCheck_sev_pass msg defaultRules
      (by rw [defaultRules_speedmax]; exact not_lt.mpr hpv)
      (by rw [defaultRules_speedmax]; exact not_lt.mpr hsv)
  have s6 : (missDistanceCheck msg defaultRules).severity = .PASS := by
    rw [missDistanceCheck_some_severity msg defaultRules _ hmiss, sub_self, abs_zero,
      defaultRules_missatol, if_neg]
    exact not_lt.mpr (le_trans (by norm_num) (le_max_left _ _))
  have s7 : (relSpeedCheck msg defaultRules).severity = .PASS := by
    apply relSpeedCheck_sev_pass msg defaultRules _ hrel
    rw [sub_self, abs_zero, defaultRules_relatol]
    exact not_lt.mpr (le_trans (by norm_num) (le_max_left _ _))
  have hsev : (validate_message msg defaultRules).findings.map Finding.severity
      = [.PASS, .PASS, .PASS, .PASS, .PASS, .PASS, .PASS, .WARN] := by
    rw [findings_eq, covChecks_none msg defaultRules hcov]
    simp only [List.map_cons, List.map_nil]
    rw [s1, s2, s3, s4, s5, s6, s7]
  constructor
  · rw [ok_eq, countSev_map, hsev]; rfl
  · rw [summary_eq]
    simp only [countSev_map]
    rw [hsev]
    rfl

/-- C7 as stated is false: a message satisfying every condition the
claim lists (it does not constrain relative_speed_mps, which is absent
here) yields two WARN findings, not one, because the absence of
relative_speed_mps is itself a WARN. -/
theorem C7_counterexample :
    msgScenarioA.primary.object_id ≠ msgScenarioA.secondary.object_id
    ∧ msgScenarioA.primary.frame = msgScenarioA.secondary.frame
    ∧ msgScenarioA.tca_utc = msgScenarioA.creation_time_utc + 7200
    ∧ norm3 msgScenarioA.primary.position_m = 7000000
    ∧ 7000000 ≤ norm3 msgScenarioA.secondary.position_m
    ∧ norm3 msgScenarioA.secondary.position_m ≤ 7000001
    ∧ norm3 msgScenarioA.primary.velocity_mps = 7500
    ∧ norm3 msgScenarioA.secondary.velocity_mps = 7500
    ∧ msgScenarioA.miss_distance_m = some (miss_est msgScenarioA)
    ∧ msgScenarioA.rel_pos_cov_m2 = none
    ∧ List.lookup "warn" (validate_message msgScenarioA defaultRules).summary = some 2 := by
  have s1 : (idCheck msgScenarioA).severity = .PASS := idCheck_sev_pass _ (by decide)
  have s2 : (timeCheck msgScenarioA defaultRules).severity = .PASS := by
    apply timeCheck_sev_pass
    · norm_num [msgScenarioA]
    · rw [defaultRules_time]; norm_num [msgScenarioA]
  have s3 : (frameCheck msgScenarioA).severity = .PASS := frameCheck_sev_pass _ rfl
  have s4 : (posNormCheck msgScenarioA defaultRules).severity = .PASS :=
    posNormCheck_sev_pass _ _
      (by rw [defaultRules_posmax]
          exact not_lt.mpr (norm3_le_of _ _ (by norm_num)
            (by simp [msgScenarioA]; norm_num)))
      (by rw [defaultRules_posmax]
          exact not_lt.mpr (norm3_le_of _ _ (by norm_num)
            (by simp [msgScenarioA]; norm_num)))
  have s5 : (speedNormCheck msgScenarioA defaultRules).severity = .PASS :=
    speedNormCheck_sev_pass _ _
      (by rw [defaultRules_speedmax]
          exact not_lt.mpr (norm3_le_of _ _ (by norm_num)
            (by simp [msgScenarioA]; norm_num)))
      (by rw [defaultRules_speedmax]
          exact not_lt.mpr (norm3_le_of _ _ (by norm_num)
            (by simp [msgScenarioA]; norm_num)))
  have s6 : (missDistanceCheck msgScenarioA defaultRules).severity = .PASS := by
    rw [missDistanceCheck_some_severity msgScenarioA defaultRules 5 rfl,
      miss_est_msgScenarioA, defaultRules_missatol, defaultRules_missrtol,
      if_neg (by norm_num)]
  have hsev : (validate_message msgScenarioA defaultRules).findings.map Finding.severity
      = [.PASS, .PASS, .PASS, .PASS, .PASS, .PASS, .WARN, .WARN] := by
    rw [findings_eq, covChecks_none msgScenarioA defaultRules rfl,
      relSpeedCheck_none msgScenarioA defaultRules rfl]
    simp only [List.map_cons, List.map_nil]
    rw [s1, s2, s3, s4, s5, s6]
  refine ⟨by decide, rfl, by norm_num [msgScenarioA], ?_, ?_, ?_, ?_, ?_, ?_, rfl, ?_⟩
  · exact norm3_eq_of _ _ (by norm_num) (by simp [msgScenarioA])
  · exact norm3_ge_of _ _ (by norm_num) (by simp [msgScenarioA])
  · exact norm3_le_of _ _ (by norm_num) (by simp [msgScenarioA]; norm_num)
  · exact norm3_eq_of _ _ (by norm_num) (by simp [msgScenarioA])
  · exact norm3_eq_of _ _ (by norm_num) (by simp [msgScenarioA])
  · rw [miss_est_msgScenarioA]; rfl
  · rw [lookup_warn_summary, countSev_map, hsev]; rfl

/-- Witness for the amended C7 at the scenario-A message extended with a
consistent relative speed. -/
theorem C7_witness :
    (validate_message msgScenarioA' defaultRules).ok = true
    ∧ (validate_message msgScenarioA' defaultRules).summary =
        [("pass", 7), ("warn", 1), ("fail", 0)] :=
  C7_amended msgScenarioA' (by decide) rfl
    (by norm_num [msgScenarioA', msgScenarioA])
    (norm3_le_of _ _ (by norm_num) (by simp [msgScenarioA', msgScenarioA]; norm_num))
    (norm3_le_of _ _ (by norm_num) (by simp [msgScenarioA', msgScenarioA]; norm_num))
    (norm3_le_of _ _ (by norm_num) (by simp [msgScenarioA', msgScenarioA]; norm_num))
    (norm3_le_of _ _ (by norm_num) (by simp [msgScenarioA', msgScenarioA]; norm_num))
    (by rw [miss_est_msgScenarioA']; rfl)
    (by rw [rel_est_msgScenarioA']; rfl)
    rfl

/-! ## Safety of every partial primitive -/

theorem safeSqrt_of_not_neg (x : ℝ) (h : ¬ x < 0) :
    safeSqrt x = some (Real.sqrt x) := by
  rw [safeSqrt, if_neg h]

theorem norm3Safe_eq (v : Vec3) : norm3Safe v = some (norm3 v) := by
  rw [norm3Safe, safeSqrt_of_not_neg _ (not_lt.mpr (by positivity)), norm3]

theorem safeDiv_floored (a m : ℝ) :
    safeDiv a (max m (1/1000000000)) = some (a / max m (1/1000000000)) := by
  rw [safeDiv, if_neg]
  exact (lt_of_lt_of_le (by norm_num) (le_max_right m (1/1000000000))).ne'

theorem posNormCheckSafe_eq (msg : ConjunctionMessage) (rules : Rules) :
    posNormCheckSafe msg rules = some (posNormCheck msg rules) := by
  simp [posNormCheckSafe, norm3Safe_eq]

theorem speedNormCheckSafe_eq (msg : ConjunctionMessage) (rules : Rules) :
    speedNormCheckSafe msg rules = some (speedNormCheck msg rules) := by
  simp [speedNormCheckSafe, norm3Safe_eq]

theorem missDistanceCheckSafe_eq (msg : ConjunctionMessage) (rules : Rules) :
    missDistanceCheckSafe msg rules = some (missDistanceCheck msg rules) := by
  rcases hm : msg.miss_distance_m with _ | md <;>
    simp only [missDistanceCheckSafe, norm3Safe_eq, safeDiv_floored, hm] <;> rfl

theorem relSpeedCheckSafe_eq (msg : ConjunctionMessage) (rules : Rules) :
    relSpeedCheckSafe msg rules = some (relSpeedCheck msg rules) := by
  rcases hr : msg.relative_speed_mps with _ | rs <;>
    simp only [relSpeedCheckSafe, norm3Safe_eq, safeDiv_floored, hr] <;> rfl

theorem covDiagStdSafe_eq (Csym : Matrix (Fin 3) (Fin 3) ℝ) :
    covDiagStdSafe Csym = some () := by
  rw [covDiagStdSafe]
  split
  · rfl
  · rename_i h
    obtain ⟨h0, h12⟩ := not_or.mp h
    obtain ⟨h1, h2⟩ := not_or.mp h12
    simp [safeSqrt_of_not_neg _ h0, safeSqrt_of_not_neg _ h1, safeSqrt_of_not_neg _ h2]

theorem covChecksSafe_eq (msg : ConjunctionMessage) (rules : Rules) :
    covChecksSafe msg rules = some (covChecks msg rules) := by
  rcases hc : msg.rel_pos_cov_m2 with _ | c <;>
    simp [covChecksSafe, covDiagStdSafe_eq, hc]

/-- C8: evaluating the validator with every partial numeric primitive
modelled as fallible (square roots of possibly negative numbers,
divisions by a possibly zero denominator) always succeeds, and yields
exactly the report of the total model: the relative-error denominator is
floored at a positive epsilon, and the diagonal square roots are taken
only after the non-negativity check, so no branch can fail. -/
theorem C8_no_raise (msg : ConjunctionMessage) (rules : Rules) :
    validate_messageSafe msg rules = some (validate_message msg rules) := by
  rw [validate_messageSafe]
  rw [posNormCheckSafe_eq, speedNormCheckSafe_eq, missDistanceCheckSafe_eq,
    relSpeedCheckSafe_eq, covChecksSafe_eq]
  rfl

/-- C9: with a covariance present, a negative diagonal entry of the
symmetrized matrix yields a FAIL COV_DIAG finding and no COV_STD
finding; otherwise a COV_STD finding is emitted whose severity is
graded by the maximal diagonal standard deviation against the warn and
fail thresholds. -/
theorem C9_cov_diag_std (msg : ConjunctionMessage) (rules : Rules) (c : Cov9)
    (h : msg.rel_pos_cov_m2 = some c) :
    ((covSymmetrize (cov3x3 c) 0 0 < 0 ∨ covSymmetrize (cov3x3 c) 1 1 < 0 ∨
        covSymmetrize (cov3x3 c) 2 2 < 0) →
      (∃ f ∈ (validate_message msg rules).findings,
          f.check_id = "COV_DIAG" ∧ f.severity = .FAIL)
      ∧ countId (validate_message msg rules).findings "COV_STD" = 0)
    ∧ (¬ (covSymmetrize (cov3x3 c) 0 0 < 0 ∨ covSymmetrize (cov3x3 c) 1 1 < 0 ∨
        covSymmetrize (cov3x3 c) 2 2 < 0) →
      ∃ f ∈ (validate_message msg rules).findings,
        f.check_id = "COV_STD"
        ∧ f.severity =
            (if max (max (Real.sqrt (covSymmetrize (cov3x3 c) 0 0))
                        (Real.sqrt (covSymmetrize (cov3x3 c) 1 1)))
                   (Real.sqrt (covSymmetrize (cov3x3 c) 2 2)) >
                rules.covariance.std_fail_m then Severity.FAIL
             else if max (max (Real.sqrt (covSymmetrize (cov3x3 c) 0 0))
                        (Real.sqrt (covSymmetrize (cov3x3 c) 1 1)))
                   (Real.sqrt (covSymmetrize (cov3x3 c) 2 2)) >
                rules.covariance.std_warn_m then Severity.WARN
             else Severity.PASS)) := by
  have hmem : covDiagStdFinding (covSymmetrize (cov3x3 c)) rules
      ∈ (validate_message msg rules).findings := by
    rw [findings_eq, covChecks_some msg rules c h]
    exact List.mem_cons_of_mem _ (List.mem_cons_of_mem _ (List.mem_cons_of_mem _
      (List.mem_cons_of_mem _ (List.mem_cons_of_mem _ (List.mem_cons_of_mem _
        (List.mem_cons_of_mem _ (List.mem_cons_of_mem _ (List.mem_cons_of_mem _
          (List.mem_cons_self _ _)))))))))
  constructor
  · intro hneg
    have hd := covDiagStdFinding_neg (covSymmetrize (cov3x3 c)) rules hneg
    refine ⟨⟨covDiagStdFinding (covSymmetrize (cov3x3 c)) rules, hmem,
        by rw [hd], by rw [hd]⟩, ?_⟩
    rw [findings_eq]
    simp only [countId_cons, countId_nil]
    rw [hit_timeCheck_zero msg rules _ (by decide) (by decide),
        hit_missCheck_zero msg rules _ (by decide) (by decide),
        hit_relSpeedCheck_zero msg rules _ (by decide) (by decide),
        covChecks_some msg rules c h, hd]
    simp [countId_cons, countId_nil, idCheck_check_id, frameCheck_check_id,
      posNormCheck_check_id, speedNormCheck_check_id,
      covSymFinding_check_id, covPsdFinding_check_id]
  · intro hpos
    exact ⟨covDiagStdFinding (covSymmetrize (cov3x3 c)) rules, hmem,
      covDiagStdFinding_nonneg_check_id _ _ hpos,
      covDiagStdFinding_nonneg_severity _ _ hpos⟩

theorem covSymmetrize_apply (C : Matrix (Fin 3) (Fin 3) ℝ) (i j : Fin 3) :
    covSymmetrize C i j = (1/2) * (C i j + C j i) := by
  simp [covSymmetrize, Matrix.smul_apply, Matrix.add_apply, Matrix.transpose_apply]

/-- Witness for C9 at a concrete message whose covariance has a -1
diagonal entry. -/
theorem C9_witness :
    (∃ f ∈ (validate_message msgNegDiag defaultRules).findings,
        f.check_id = "COV_DIAG" ∧ f.severity = .FAIL)
    ∧ countId (validate_message msgNegDiag defaultRules).findings "COV_STD" = 0 :=
  (C9_cov_diag_std msgNegDiag defaultRules ⟨-1, 0, 0, 0, 0, 0, 0, 0, 0⟩ rfl).1
    (Or.inl (by rw [covSymmetrize_apply]; norm_num [cov3x3, msgNegDiag]))

end CDV
